import Mathlib

/-
Shallow embedding of the popup controller of the YTBooksmark browser
extension (src/popup.js) and proofs about it.

Modelling conventions:
 - JavaScript values that may be undefined or null are modelled as Option.
 - JavaScript string truthiness (null / undefined / "" are falsy) is made
   explicit via jsTruthyStr; numeric truthiness (0 falsy) via jsTruthyId.
 - The DOM container holding the bookmark list is a List Node; console
   error logging is an error counter in RenderState.
 - chrome.storage.sync is an external key-value collaborator: reads are
   recorded as effects, and the stored, already-deserialised value for a
   key is supplied by a StorageData environment. A storage-layer error
   (chrome.runtime.lastError) is a Boolean input.
 - getActiveTabURL is an external collaborator: its result is an
   Except Unit (Option Tab), where Except.error stands for a thrown or
   rejected promise and Option.none for an undefined tab.
 - chrome.tabs.sendMessage success or rejection is a Boolean input; a
   successful send is recorded as an effect.
 - URLSearchParams is modelled per the URL standard for string input:
   strip one leading question mark, split on the ampersand, skip empty
   segments, split each segment at the first equals sign, and decode
   plus signs and percent escapes (byte-per-character, faithful for
   ASCII, which is all the repository exercises).
-/

namespace YTB

/-- Splits a character list at every occurrence of the separator, like the
JavaScript String.split with a one-character separator string. -/
def splitOnChar (sep : Char) : List Char → List (List Char)
  | [] => [[]]
  | c :: rest =>
    let r := splitOnChar sep rest
    if c = sep then [] :: r
    else
      match r with
      | [] => [[c]]
      | h :: t => (c :: h) :: t

/-- Value of one hexadecimal digit character, if it is one. -/
def hexDigitVal (c : Char) : Option Nat :=
  if '0' ≤ c ∧ c ≤ '9' then some (c.toNat - 48)
  else if 'a' ≤ c ∧ c ≤ 'f' then some (c.toNat - 87)
  else if 'A' ≤ c ∧ c ≤ 'F' then some (c.toNat - 55)
  else none

/-- Percent-decoding of application/x-www-form-urlencoded text: a percent
sign followed by two hex digits becomes the character with that code;
invalid escapes are kept literally. -/
def percentDecode : List Char → List Char
  | '%' :: h1 :: h2 :: rest =>
    match hexDigitVal h1, hexDigitVal h2 with
    | some a, some b => Char.ofNat (16 * a + b) :: percentDecode rest
    | _, _ => '%' :: percentDecode (h1 :: h2 :: rest)
  | c :: rest => c :: percentDecode rest
  | [] => []

/-- Form decoding: plus becomes space, then percent escapes are decoded. -/
def formDecode (s : List Char) : List Char :=
  percentDecode (s.map fun c => if c = '+' then ' ' else c)

/-- Parses a query string into the (decoded key, decoded value) pairs kept
by a URLSearchParams object built from it. -/
def parseQueryPairs (q : List Char) : List (List Char × List Char) :=
  let q1 := match q with
    | '?' :: rest => rest
    | _ => q
  (splitOnChar '&' q1).filterMap fun seg =>
    match seg with
    | [] => none
    | _ =>
      match splitOnChar '=' seg with
      | [] => none
      | k :: vs => some (formDecode k, formDecode (List.intercalate ['='] vs))

/-- URLSearchParams.get: the value of the first pair with the given name,
or none for the JavaScript null. -/
def searchParamsGet (q : List Char) (name : List Char) : Option String :=
  ((parseQueryPairs q).find? fun p => p.1 == name).map fun p => List.asString p.2

/-- JavaScript truthiness of a possibly-absent string: undefined, null and
the empty string are falsy. -/
def jsTruthyStr : Option String → Bool
  | none => false
  | some s => s != ""

/-- JavaScript truthiness of a possibly-absent numeric id: undefined and 0
are falsy. -/
def jsTruthyId : Option Int → Bool
  | none => false
  | some i => i != 0

/-- extractVideoId from src/popup.js: a falsy url gives null; otherwise the
part of the url between the first and second question mark (or the empty
string when there is no question mark, matching URLSearchParams applied to
undefined) is parsed and the v parameter is returned. -/
def extractVideoId : Option String → Option String
  | none => none
  | some u =>
    if u = "" then none
    else searchParamsGet (((splitOnChar '?' u.data).get? 1).getD []) ['v']

/-- The url.includes check of isYouTubeVideoPage: the url is present and
contains the literal substring youtube.com/watch. -/
def containsWatch : Option String → Bool
  | none => false
  | some u => decide ("youtube.com/watch".data <:+: u.data)

/-- isYouTubeVideoPage from src/popup.js, as the truthiness of the chained
conjunction url and url.includes and extractVideoId url. -/
def isYouTubeVideoPage (url : Option String) : Bool :=
  jsTruthyStr url && containsWatch url && jsTruthyStr (extractVideoId url)

/-- A control button created by createControlButton: an img node with its
source, tooltip, alt text, classes and the click handler attached. -/
structure ControlButton where
  src : String
  title : String
  alt : String
  className : String
  listener : String
deriving DecidableEq, Repr

/-- A rendered bookmark row as assembled by addNewBookmark: the outer div
with its id, class and attributes, the title div, and the controls div
with its buttons. -/
structure BookmarkRow where
  id : String
  className : String
  timestamp : String
  dataDescription : String
  titleText : String
  titleClass : String
  titleTooltip : String
  controlsClass : String
  controls : List ControlButton
deriving DecidableEq, Repr

/-- A child node of the bookmarks container: either the literal placeholder
row or a bookmark row. -/
inductive Node where
  | placeholderRow (text : String)
  | bookmarkRow (row : BookmarkRow)
deriving DecidableEq, Repr

/-- Whether a container node is a bookmark row. -/
def Node.isBookmarkRow : Node → Bool
  | .bookmarkRow _ => true
  | .placeholderRow _ => false

/-- A bookmark record as read from storage: time may be undefined, desc may
be undefined (or empty, which is falsy). -/
structure Bookmark where
  time : Option Int
  desc : Option String
deriving DecidableEq, Repr

/-- State of one render pass: the children of the bookmarks container and
the number of console.error calls made. -/
structure RenderState where
  nodes : List Node
  errors : Nat
deriving DecidableEq, Repr

/-- createControlButton from src/popup.js, returning the button it appends;
listener names the click handler attached. -/
def createControlButton (action title listener : String) : ControlButton :=
  { src := "assets/" ++ action ++ ".png"
    title := title
    alt := action ++ " button"
    className := "control-button " ++ action ++ "-button"
    listener := listener }

/-- The row addNewBookmark assembles for a valid bookmark with time t and
description d. The id and timestamp attribute use the decimal rendering of
the numeric time, as JavaScript template literals and setAttribute do. -/
def mkBookmarkRow (t : Int) (d : String) : BookmarkRow :=
  { id := "bookmark-" ++ Int.repr t
    className := "bookmark"
    timestamp := Int.repr t
    dataDescription := d
    titleText := d
    titleClass := "bookmark-title"
    titleTooltip := d
    controlsClass := "bookmark-controls"
    controls := [createControlButton "play" "Play bookmark" "onPlay",
                 createControlButton "delete" "Delete bookmark" "onDelete"] }

/-- The validity test of addNewBookmark: the entry is present, its time is
defined and its desc is truthy. -/
def isValidBookmark : Option Bookmark → Bool
  | none => false
  | some b =>
    b.time.isSome &&
      (match b.desc with
       | none => false
       | some d => d != "")

/-- addNewBookmark from src/popup.js: an invalid entry logs an error and
adds nothing; a valid entry appends its assembled row to the container. -/
def addNewBookmark (st : RenderState) : Option Bookmark → RenderState
  | none => { st with errors := st.errors + 1 }
  | some b =>
    match b.time, b.desc with
    | some t, some d =>
      if d = "" then { st with errors := st.errors + 1 }
      else { st with nodes := st.nodes ++ [Node.bookmarkRow (mkBookmarkRow t d)] }
    | _, _ => { st with errors := st.errors + 1 }

/-- The argument passed to viewBookmarks: either a genuine array of
(possibly null or malformed) bookmark entries, or any non-array value. -/
inductive RenderInput where
  | nonArray
  | arr (entries : List (Option Bookmark))
deriving DecidableEq, Repr

/-- The placeholder row rendered for an empty or non-array input. -/
def placeholderNode : Node := Node.placeholderRow "No bookmarks to show"

/-- The body of viewBookmarks after the container is found: clear the
container, render the placeholder for a non-array or empty input, and
otherwise fold addNewBookmark over the entries. -/
def renderBookmarks : RenderInput → RenderState
  | .nonArray => { nodes := [placeholderNode], errors := 0 }
  | .arr es =>
    if es.isEmpty then { nodes := [placeholderNode], errors := 0 }
    else es.foldl addNewBookmark { nodes := [], errors := 0 }

/-- viewBookmarks from src/popup.js: when the bookmarks container is
missing the DOM is left unchanged; otherwise the container content is
replaced by the freshly rendered nodes, whatever it held before. -/
def viewBookmarks (dom : Option (List Node)) (input : RenderInput) : Option (List Node) :=
  match dom with
  | none => none
  | some _ => some (renderBookmarks input).nodes

/-- The active tab descriptor returned by getActiveTabURL: id and url may
each be undefined. -/
structure Tab where
  id : Option Int
  url : Option String
deriving DecidableEq, Repr

/-- A message sent to the content script. -/
structure Msg where
  type : String
  value : String
deriving DecidableEq, Repr

/-- Observable external effects of a popup operation. The popup code never
performs a storage write; the constructor exists so the frame property is
expressible. -/
inductive Effect where
  | storageRead (key : String)
  | storageWrite (key : String) (value : String)
  | sendMessage (tabId : Int) (m : Msg)
deriving DecidableEq, Repr

/-- Whether an effect is a write to persisted storage. -/
def Effect.isStorageWrite : Effect → Bool
  | .storageWrite _ _ => true
  | _ => false

/-- The DOM id of a container node, for getElementById lookups: only
bookmark rows carry an id. -/
def nodeId : Node → Option String
  | .placeholderRow _ => none
  | .bookmarkRow r => some r.id

/-- getElementById over the container children: the first node carrying the
given id. -/
def findById (eid : String) : List Node → Option Node
  | [] => none
  | n :: rest => if nodeId n = some eid then some n else findById eid rest

/-- Element.remove on the node found by getElementById: drops the first
node carrying the given id. -/
def removeFirstById (eid : String) : List Node → List Node
  | [] => []
  | n :: rest => if nodeId n = some eid then rest else n :: removeFirstById eid rest

/-- Result of one run of the onDelete handler: the container children after
the handler, the messages successfully sent, and whether the delayed
refreshBookmarks call was scheduled (the setTimeout was reached). -/
structure DeleteResult where
  nodes : List Node
  effects : List Effect
  refreshScheduled : Bool
deriving DecidableEq, Repr

/-- onDelete from src/popup.js. Inputs: the timestamp attribute read from
the clicked row (none when no ancestor row or attribute exists), the
container children, the getActiveTabURL result, and whether sendMessage
succeeds. A falsy timestamp or a missing row returns early. The row is
removed before the tab is resolved. A thrown tab fetch or a rejected send
jumps to the catch block, skipping the setTimeout that schedules the
refresh; a missing tab id merely skips the send. -/
def onDelete (ts : Option String) (nodes : List Node)
    (tabRes : Except Unit (Option Tab)) (sendOk : Bool) : DeleteResult :=
  match ts with
  | none => ⟨nodes, [], false⟩
  | some t =>
    if t = "" then ⟨nodes, [], false⟩
    else
      match findById ("bookmark-" ++ t) nodes with
      | none => ⟨nodes, [], false⟩
      | some _ =>
        let nodes1 := removeFirstById ("bookmark-" ++ t) nodes
        match tabRes with
        | .error _ => ⟨nodes1, [], false⟩
        | .ok none => ⟨nodes1, [], true⟩
        | .ok (some tb) =>
          match tb.id with
          | none => ⟨nodes1, [], true⟩
          | some i =>
            if i = 0 then ⟨nodes1, [], true⟩
            else if sendOk then ⟨nodes1, [Effect.sendMessage i ⟨"DELETE", t⟩], true⟩
            else ⟨nodes1, [], false⟩

/-- onPlay from src/popup.js: with a truthy timestamp and a resolved tab
with truthy id, sends the PLAY message; every failure is caught and ends
the handler. Returns the messages successfully sent. -/
def onPlay (ts : Option String) (tabRes : Except Unit (Option Tab))
    (sendOk : Bool) : List Effect :=
  match ts with
  | none => []
  | some t =>
    if t = "" then []
    else
      match tabRes with
      | .error _ => []
      | .ok none => []
      | .ok (some tb) =>
        match tb.id with
        | none => []
        | some i =>
          if i = 0 then []
          else if sendOk then [Effect.sendMessage i ⟨"PLAY", t⟩]
          else []

/-- The external storage environment: the already-deserialised list stored
under a key, or none when the key is absent. -/
abbrev StorageData := String → Option (List (Option Bookmark))

/-- Outcome of initializeExtension on the UI. -/
inductive InitOutcome where
  | notYouTubeMsg
  | noRender
  | rendered (nodes : List Node)
deriving DecidableEq, Repr

/-- Result of initializeExtension: its UI outcome and its effects. -/
structure InitResult where
  outcome : InitOutcome
  effects : List Effect
deriving DecidableEq, Repr

/-- Outcome of refreshBookmarks on the UI. -/
inductive RefreshOutcome where
  | noop
  | rendered (nodes : List Node)
deriving DecidableEq, Repr

/-- Result of refreshBookmarks: its UI outcome and its effects. -/
structure RefreshResult where
  outcome : RefreshOutcome
  effects : List Effect
deriving DecidableEq, Repr

/-- initializeExtension from src/popup.js. A thrown tab fetch, a missing
tab or url, a failed page check or an inextractable video id all render the
not-a-YouTube-page message. Then storage is read for the video id; on a
storage-layer error the handler logs and stops with no UI update; otherwise
the stored list (defaulting to empty) is rendered via viewBookmarks. -/
def initializeExtension (tabRes : Except Unit (Option Tab)) (storageErr : Bool)
    (stored : StorageData) : InitResult :=
  match tabRes with
  | .error _ => ⟨.notYouTubeMsg, []⟩
  | .ok none => ⟨.notYouTubeMsg, []⟩
  | .ok (some tb) =>
    match tb.url with
    | none => ⟨.notYouTubeMsg, []⟩
    | some u =>
      if u = "" then ⟨.notYouTubeMsg, []⟩
      else if !(isYouTubeVideoPage (some u)) then ⟨.notYouTubeMsg, []⟩
      else
        match extractVideoId (some u) with
        | none => ⟨.notYouTubeMsg, []⟩
        | some vid =>
          if vid = "" then ⟨.notYouTubeMsg, []⟩
          else if storageErr then ⟨.noRender, [Effect.storageRead vid]⟩
          else ⟨.rendered (renderBookmarks (.arr ((stored vid).getD []))).nodes,
                [Effect.storageRead vid]⟩

/-- refreshBookmarks from src/popup.js. Unlike initialization it performs
no page check and renders no message: a thrown tab fetch, a missing tab, or
a falsy extracted video id end the handler silently. Storage is then read
without consulting chrome.runtime.lastError; on a storage-layer error the
callback receives no data object and dies on the property access, so
nothing is rendered; otherwise the stored list is rendered. -/
def refreshBookmarks (tabRes : Except Unit (Option Tab)) (storageErr : Bool)
    (stored : StorageData) : RefreshResult :=
  match tabRes with
  | .error _ => ⟨.noop, []⟩
  | .ok none => ⟨.noop, []⟩
  | .ok (some tb) =>
    match extractVideoId tb.url with
    | none => ⟨.noop, []⟩
    | some vid =>
      if vid = "" then ⟨.noop, []⟩
      else if storageErr then ⟨.noop, [Effect.storageRead vid]⟩
      else ⟨.rendered (renderBookmarks (.arr ((stored vid).getD []))).nodes,
            [Effect.storageRead vid]⟩

/-- The row (if any) that one entry contributes to the rendered output:
valid entries contribute their assembled row, invalid ones nothing. -/
def rowOfEntry : Option Bookmark → Option Node
  | some ⟨some t, some d⟩ =>
    if d = "" then none else some (Node.bookmarkRow (mkBookmarkRow t d))
  | _ => none

/-- Numeric value of a decimal digit string, for proving the decimal
rendering of numbers injective. -/
def digitsVal (l : List Char) : Nat :=
  l.foldl (fun a c => 10 * a + (c.toNat - 48)) 0

/-- Two strings with the same character data are equal. -/
theorem string_data_inj {s t : String} (h : s.data = t.data) : s = t := by
  cases s
  cases t
  exact congrArg String.mk h

/-- One step of the render fold: the nodes gain exactly the row of the
entry (none for an invalid entry) and the error count grows exactly when
the entry is invalid. -/
theorem addNewBookmark_step (st : RenderState) (e : Option Bookmark) :
    (addNewBookmark st e).nodes = st.nodes ++ (rowOfEntry e).toList ∧
    (addNewBookmark st e).errors = st.errors + (if isValidBookmark e then 0 else 1) := by
  rcases e with _ | ⟨_ | tv, _ | dv⟩
  · simp [addNewBookmark, rowOfEntry, isValidBookmark]
  · simp [addNewBookmark, rowOfEntry, isValidBookmark]
  · simp [addNewBookmark, rowOfEntry, isValidBookmark]
  · simp [addNewBookmark, rowOfEntry, isValidBookmark]
  · by_cases hd : dv = "" <;>
      simp [addNewBookmark, rowOfEntry, isValidBookmark, hd]

/-- The render fold appends exactly the rows of the valid entries and
counts exactly the invalid entries as errors. -/
theorem foldl_addNewBookmark (es : List (Option Bookmark)) :
    ∀ st : RenderState,
      (es.foldl addNewBookmark st).nodes = st.nodes ++ es.filterMap rowOfEntry ∧
      (es.foldl addNewBookmark st).errors
        = st.errors + (es.filter fun e => !isValidBookmark e).length := by
  induction es with
  | nil => intro st; simp
  | cons e rest ih =>
    intro st
    obtain ⟨h1, h2⟩ := ih (addNewBookmark st e)
    obtain ⟨s1, s2⟩ := addNewBookmark_step st e
    constructor
    · rw [List.foldl_cons, h1, s1]
      cases hr : rowOfEntry e <;> simp [hr, List.filterMap_cons]
    · rw [List.foldl_cons, h2, s2, List.filter_cons]
      cases hv : isValidBookmark e
      · simp
        omega
      · simp

/-- Accumulator lemma for the digit printer of the core library. -/
theorem toDigitsCore_append : ∀ (fuel n : Nat) (ds : List Char),
    Nat.toDigitsCore 10 fuel n ds = Nat.toDigitsCore 10 fuel n [] ++ ds := by
  intro fuel
  induction fuel with
  | zero => intro n ds; simp [Nat.toDigitsCore]
  | succ f ih =>
    intro n ds
    simp only [Nat.toDigitsCore]
    by_cases h : n / 10 = 0
    · simp [h]
    · simp only [h, if_neg, ite_false]
      rw [ih (n / 10) (Nat.digitChar (n % 10) :: ds),
          ih (n / 10) [Nat.digitChar (n % 10)]]
      simp

/-- Folding the decimal value over one more trailing digit. -/
theorem digitsVal_append (l : List Char) (c : Char) :
    digitsVal (l ++ [c]) = 10 * digitsVal l + (c.toNat - 48) := by
  simp [digitsVal, List.foldl_append]

/-- The code of a decimal digit character, shifted back to its value. -/
theorem digitChar_val {d : Nat} (h : d < 10) : (Nat.digitChar d).toNat - 48 = d := by
  interval_cases d <;> decide

/-- The digit printer is inverted by the decimal value function. -/
theorem digitsVal_toDigitsCore : ∀ (fuel n : Nat), n < fuel →
    digitsVal (Nat.toDigitsCore 10 fuel n []) = n := by
  intro fuel
  induction fuel with
  | zero => intro n h; omega
  | succ f ih =>
    intro n hn
    simp only [Nat.toDigitsCore]
    by_cases h : n / 10 = 0
    · have hlt : n < 10 := by omega
      have hm : n % 10 = n := Nat.mod_eq_of_lt hlt
      simp [h, digitsVal, hm, digitChar_val hlt]
    · have hdiv : n / 10 < n := Nat.div_lt_self (by omega) (by omega)
      rw [if_neg h, toDigitsCore_append, digitsVal_append,
          ih (n / 10) (by omega), digitChar_val (Nat.mod_lt n (by omega))]
      omega

/-- The decimal value function inverts Nat.toDigits at base ten. -/
theorem digitsVal_toDigits (n : Nat) : digitsVal (Nat.toDigits 10 n) = n :=
  digitsVal_toDigitsCore (n + 1) n (Nat.lt_succ_self n)

/-- The decimal rendering of a natural number determines it. -/
theorem nat_repr_injective {a b : Nat} (h : Nat.repr a = Nat.repr b) : a = b := by
  have hd : Nat.toDigits 10 a = Nat.toDigits 10 b := congrArg String.data h
  calc a = digitsVal (Nat.toDigits 10 a) := (digitsVal_toDigits a).symm
    _ = digitsVal (Nat.toDigits 10 b) := by rw [hd]
    _ = b := digitsVal_toDigits b

/-- The digit printer always emits a decimal digit character first. -/
theorem toDigitsCore_head : ∀ (fuel n : Nat) (ds : List Char),
    ∃ d, d < 10 ∧ ∃ rest,
      Nat.toDigitsCore 10 (fuel + 1) n ds = Nat.digitChar d :: rest := by
  intro fuel
  induction fuel with
  | zero =>
    intro n ds
    refine ⟨n % 10, Nat.mod_lt n (by omega), ?_⟩
    by_cases h : n / 10 = 0
    · exact ⟨ds, by simp [Nat.toDigitsCore, h]⟩
    · exact ⟨ds, by simp [Nat.toDigitsCore, h]⟩
  | succ f ih =>
    intro n ds
    by_cases h : n / 10 = 0
    · exact ⟨n % 10, Nat.mod_lt n (by omega), ds, by simp [Nat.toDigitsCore, h]⟩
    · obtain ⟨d, hd, rest, hr⟩ := ih (n / 10) (Nat.digitChar (n % 10) :: ds)
      refine ⟨d, hd, rest, ?_⟩
      simp only [Nat.toDigitsCore, h, if_neg, ite_false]
      exact hr

/-- Nat.toDigits at base ten starts with a decimal digit character. -/
theorem toDigits_head (n : Nat) :
    ∃ d, d < 10 ∧ ∃ rest, Nat.toDigits 10 n = Nat.digitChar d :: rest :=
  toDigitsCore_head n n []

/-- Decimal digit characters are not the minus sign. -/
theorem digitChar_ne_dash {d : Nat} (h : d < 10) : Nat.digitChar d ≠ '-' := by
  interval_cases d <;> decide

/-- The decimal rendering of an integer determines it. -/
theorem int_repr_injective {a b : Int} (h : Int.repr a = Int.repr b) : a = b := by
  have hdata := congrArg String.data h
  cases a with
  | ofNat m =>
    cases b with
    | ofNat k => exact congrArg Int.ofNat (nat_repr_injective h)
    | negSucc k =>
      exfalso
      obtain ⟨d, hd, rest, hr⟩ := toDigits_head m
      have hdata2 : Nat.toDigits 10 m = '-' :: (Nat.toDigits 10 (k + 1)) := by
        simpa [Int.repr, Nat.repr, List.asString] using hdata
      rw [hr] at hdata2
      exact digitChar_ne_dash hd (List.head_eq_of_cons_eq hdata2)
  | negSucc m =>
    cases b with
    | ofNat k =>
      exfalso
      obtain ⟨d, hd, rest, hr⟩ := toDigits_head k
      have hdata2 : Nat.toDigits 10 k = '-' :: (Nat.toDigits 10 (m + 1)) := by
        simpa [Int.repr, Nat.repr, List.asString] using hdata.symm
      rw [hr] at hdata2
      exact digitChar_ne_dash hd (List.head_eq_of_cons_eq hdata2)
    | negSucc k =>
      have hdata2 : '-' :: (Nat.toDigits 10 (m + 1)) = '-' :: (Nat.toDigits 10 (k + 1)) := by
        simpa [Int.repr, Nat.repr, List.asString] using hdata
      have hms : Nat.repr (m + 1) = Nat.repr (k + 1) := by
        have := List.tail_eq_of_cons_eq hdata2
        exact string_data_inj this
      have := nat_repr_injective hms
      have hmk : m = k := by omega
      rw [hmk]

/-- Distinct row ids exactly for distinct times: the row id is the string
bookmark- followed by the decimal time, and that rendering is injective. -/
theorem mkBookmarkRow_id_iff (t t2 : Int) (d d2 : String) :
    (mkBookmarkRow t2 d2).id = (mkBookmarkRow t d).id ↔ t2 = t := by
  constructor
  · intro h
    have hdata := congrArg String.data h
    simp only [mkBookmarkRow, String.data_append] at hdata
    have hr : (Int.repr t2).data = (Int.repr t).data := List.append_cancel_left hdata
    exact int_repr_injective (string_data_inj hr)
  · intro h
    rw [h]
    simp [mkBookmarkRow]

/-- C1: for every nonempty input sequence given to the render function,
the rendered rows are exactly the rows of the valid entries in order
(every entry with undefined time or falsy desc contributes no row and one
logged error, and every valid entry still renders, so an invalid entry
does not abort rendering of the rest). -/
theorem c1_invalid_entries_skipped (es : List (Option Bookmark)) (h : es ≠ []) :
    (renderBookmarks (.arr es)).nodes = es.filterMap rowOfEntry ∧
    (renderBookmarks (.arr es)).errors
      = (es.filter fun e => !isValidBookmark e).length ∧
    ∀ e ∈ es, isValidBookmark e = true →
      ∃ n ∈ (renderBookmarks (.arr es)).nodes, rowOfEntry e = some n := by
  have hne : es.isEmpty = false := by
    cases es with
    | nil => exact absurd rfl h
    | cons a l => rfl
  have hfold := foldl_addNewBookmark es { nodes := [], errors := 0 }
  have hnodes : (renderBookmarks (.arr es)).nodes = es.filterMap rowOfEntry := by
    simpa [renderBookmarks, hne] using hfold.1
  refine ⟨hnodes, by simpa [renderBookmarks, hne] using hfold.2, ?_⟩
  intro e he hv
  have hrow : ∃ n, rowOfEntry e = some n := by
    rcases e with _ | ⟨_ | tv, _ | dv⟩ <;>
      simp_all [isValidBookmark, rowOfEntry]
  obtain ⟨n, hn⟩ := hrow
  refine ⟨n, ?_, hn⟩
  rw [hnodes]
  exact List.mem_filterMap.mpr ⟨e, he, hn⟩

/-- Witness for C1 at the concrete input of the claim: the entry with
undefined time is skipped (one logged error) and only the valid entry
renders. -/
theorem c1_witness :
    (renderBookmarks
        (.arr [some ⟨none, some "a"⟩, some ⟨some 5, some "b"⟩])).nodes
      = [Node.bookmarkRow (mkBookmarkRow 5 "b")] ∧
    (renderBookmarks
        (.arr [some ⟨none, some "a"⟩, some ⟨some 5, some "b"⟩])).errors = 1 := by
  have h := c1_invalid_entries_skipped
    [some ⟨none, some "a"⟩, some ⟨some 5, some "b"⟩] (by decide)
  exact ⟨h.1.trans (by decide), h.2.1.trans (by decide)⟩

/-- C6: the render function clears all prior content, so rendering twice
leaves only the second input visible, and the rendered result does not
depend on what the container held before. -/
theorem c6_render_depends_only_on_last_input (c c2 : List Node) (i1 i2 : RenderInput) :
    viewBookmarks (viewBookmarks (some c) i1) i2 = some (renderBookmarks i2).nodes ∧
    viewBookmarks (some c) i2 = viewBookmarks (some c2) i2 := by
  constructor <;> simp [viewBookmarks]

/-- C7: every rendered row carries the bookmark time as its id (prefixed
bookmark-) and as its timestamp attribute, the description as data
attribute, title text and tooltip, and exactly the two actionable icons
play and delete; rows of two bookmarks share an id exactly when their
times are equal. -/
theorem c7_row_structure (t : Int) (d : String) (st : RenderState) (h : d ≠ "") :
    (addNewBookmark st (some ⟨some t, some d⟩)).nodes
        = st.nodes ++ [Node.bookmarkRow (mkBookmarkRow t d)] ∧
    (mkBookmarkRow t d).id = "bookmark-" ++ Int.repr t ∧
    (mkBookmarkRow t d).timestamp = Int.repr t ∧
    (mkBookmarkRow t d).dataDescription = d ∧
    (mkBookmarkRow t d).titleText = d ∧
    (mkBookmarkRow t d).titleTooltip = d ∧
    (mkBookmarkRow t d).controls =
      [createControlButton "play" "Play bookmark" "onPlay",
       createControlButton "delete" "Delete bookmark" "onDelete"] ∧
    (mkBookmarkRow t d).controls.length = 2 ∧
    ∀ t2 : Int, ∀ d2 : String,
      (mkBookmarkRow t2 d2).id = (mkBookmarkRow t d).id ↔ t2 = t := by
  refine ⟨?_, rfl, rfl, rfl, rfl, rfl, rfl, rfl, fun t2 d2 => mkBookmarkRow_id_iff t t2 d d2⟩
  simp [addNewBookmark, h]

/-- Witness for C7 at time 5 and description b, with the id uniqueness
instantiated at a different time. -/
theorem c7_witness :
    (addNewBookmark { nodes := [], errors := 0 } (some ⟨some 5, some "b"⟩)).nodes
        = [Node.bookmarkRow (mkBookmarkRow 5 "b")] ∧
    ((mkBookmarkRow 7 "x").id = (mkBookmarkRow 5 "b").id ↔ (7 : Int) = 5) := by
  have h := c7_row_structure 5 "b" { nodes := [], errors := 0 } (by decide)
  exact ⟨by simpa using h.1, h.2.2.2.2.2.2.2.2 7 "x"⟩

/-- C8: an empty or non-array input renders exactly the placeholder row
with the text No bookmarks to show, and no bookmark row. -/
theorem c8_placeholder_for_empty_or_nonarray :
    (renderBookmarks .nonArray).nodes = [Node.placeholderRow "No bookmarks to show"] ∧
    (renderBookmarks (.arr [])).nodes = [Node.placeholderRow "No bookmarks to show"] ∧
    ((renderBookmarks .nonArray).nodes.all fun n => !n.isBookmarkRow) = true ∧
    ((renderBookmarks (.arr [])).nodes.all fun n => !n.isBookmarkRow) = true :=
  ⟨rfl, rfl, rfl, rfl⟩

/-- C2: extractVideoId reads the v parameter of the query string; it is
abc123 on the watch url of the claim, null without a query, null on an
undefined url, and null whenever no pair of the parsed query is named v. -/
theorem c2_extractVideoId (u : String)
    (habs : ((parseQueryPairs (((splitOnChar '?' u.data).get? 1).getD [])).all
        fun p => !(p.1 == ['v'])) = true) :
    extractVideoId (some "https://youtube.com/watch?v=abc123") = some "abc123" ∧
    extractVideoId (some "https://youtube.com/watch") = none ∧
    extractVideoId none = none ∧
    extractVideoId (some u) = none := by
  refine ⟨by decide, by decide, rfl, ?_⟩
  by_cases hu : u = ""
  · subst hu
    rfl
  · simp only [extractVideoId, hu, if_neg, ite_false, searchParamsGet]
    have hfind :
        ((parseQueryPairs (((splitOnChar '?' u.data).get? 1).getD [])).find?
          fun p => p.1 == ['v']) = none := by
      rw [List.find?_eq_none]
      intro p hp
      have := List.all_eq_true.mp habs p hp
      simpa using this
    rw [hfind]
    rfl

/-- Witness for C2: the three concrete examples of the claim, and a url
whose query names no v parameter. -/
theorem c2_witness :
    extractVideoId (some "https://youtube.com/watch?v=abc123") = some "abc123" ∧
    extractVideoId (some "https://youtube.com/watch") = none ∧
    extractVideoId none = none ∧
    extractVideoId (some "https://site.test/page?x=1") = none :=
  c2_extractVideoId "https://site.test/page?x=1" (by decide)

/-- C5: isYouTubeVideoPage is truthy exactly when the url contains the
literal substring youtube.com/watch and a video id is extractable and
truthy; it is false on https example.com. -/
theorem c5_isYouTubeVideoPage (url : Option String) :
    (isYouTubeVideoPage url = true ↔
      containsWatch url = true ∧ jsTruthyStr (extractVideoId url) = true) ∧
    isYouTubeVideoPage (some "https://example.com") = false := by
  refine ⟨?_, by decide⟩
  cases url with
  | none => simp [isYouTubeVideoPage, containsWatch]
  | some u =>
    have hcw : containsWatch (some u) = true → u ≠ "" := by
      intro hc he
      subst he
      revert hc
      decide
    constructor
    · intro h
      simp only [isYouTubeVideoPage, Bool.and_eq_true] at h
      exact ⟨h.1.2, h.2⟩
    · rintro ⟨hc, he⟩
      have hu : jsTruthyStr (some u) = true := by
        simp [jsTruthyStr, bne_iff_ne]
        exact hcw hc
      simp [isYouTubeVideoPage, hu, hc, he]

/-- Witness for C5 at the watch url with id abc123 and at example.com. -/
theorem c5_witness :
    isYouTubeVideoPage (some "https://youtube.com/watch?v=abc123") = true ∧
    isYouTubeVideoPage (some "https://example.com") = false := by
  have h := c5_isYouTubeVideoPage (some "https://youtube.com/watch?v=abc123")
  exact ⟨h.1.mpr ⟨by decide, by decide⟩, h.2⟩

/-- C10: a watch url whose v parameter is present but empty gives the
empty string (not null) from extractVideoId, is falsy for
isYouTubeVideoPage, and so initialization renders the not-a-YouTube-page
message. -/
theorem c10_empty_v_param (u : String)
    (hc : containsWatch (some u) = true)
    (hv : extractVideoId (some u) = some "") :
    isYouTubeVideoPage (some u) = false ∧
    ∀ (i : Option Int) (storageErr : Bool) (stored : StorageData),
      (initializeExtension (Except.ok (some ⟨i, some u⟩)) storageErr stored).outcome
        = InitOutcome.notYouTubeMsg := by
  have hy : isYouTubeVideoPage (some u) = false := by
    simp [isYouTubeVideoPage, hv, jsTruthyStr]
  refine ⟨hy, ?_⟩
  intro i sErr stored
  have hu : u ≠ "" := by
    intro he
    subst he
    simp [extractVideoId] at hv
  simp [initializeExtension, hu, hy]

/-- Witness for C10 at the url whose v parameter is empty: extractVideoId
gives the empty string there, the page check is falsy, and initialization
shows the message. -/
theorem c10_witness :
    extractVideoId (some "https://youtube.com/watch?v=") = some "" ∧
    isYouTubeVideoPage (some "https://youtube.com/watch?v=") = false ∧
    (initializeExtension
        (Except.ok (some ⟨some 1, some "https://youtube.com/watch?v="⟩)) false
        (fun _ => none)).outcome = InitOutcome.notYouTubeMsg := by
  have h := c10_empty_v_param "https://youtube.com/watch?v=" (by decide) (by decide)
  exact ⟨by decide, h.1, h.2 (some 1) false (fun _ => none)⟩

/-- With a truthy timestamp and a found row, onDelete removes that row
from the container in every branch of the rest of the handler. -/
theorem onDelete_nodes_eq (t : String) (nodes : List Node)
    (tabRes : Except Unit (Option Tab)) (sendOk : Bool) (n : Node)
    (ht : t ≠ "") (hn : findById ("bookmark-" ++ t) nodes = some n) :
    (onDelete (some t) nodes tabRes sendOk).nodes
      = removeFirstById ("bookmark-" ++ t) nodes := by
  simp only [onDelete, ht, if_neg, ite_false, hn]
  rcases tabRes with e | (_ | ⟨tid, turl⟩)
  · rfl
  · rfl
  · rcases tid with _ | i
    · rfl
    · by_cases hi : i = 0
      · simp [hi]
      · by_cases hs : sendOk <;> simp [hi, hs]

/-- The effects of onDelete are empty or a single DELETE message carrying
the timestamp, and its container is unchanged or has the addressed row
removed. -/
theorem onDelete_shape (ts : Option String) (nodes : List Node)
    (tabRes : Except Unit (Option Tab)) (sendOk : Bool) :
    ((onDelete ts nodes tabRes sendOk).effects = [] ∨
      ∃ i t, ts = some t ∧
        (onDelete ts nodes tabRes sendOk).effects
          = [Effect.sendMessage i ⟨"DELETE", t⟩]) ∧
    ((onDelete ts nodes tabRes sendOk).nodes = nodes ∨
      ∃ t, ts = some t ∧
        (onDelete ts nodes tabRes sendOk).nodes
          = removeFirstById ("bookmark-" ++ t) nodes) := by
  rcases ts with _ | t
  · exact ⟨Or.inl rfl, Or.inl rfl⟩
  · by_cases ht : t = ""
    · constructor
      · exact Or.inl (by simp [onDelete, ht])
      · exact Or.inl (by simp [onDelete, ht])
    · cases hf : findById ("bookmark-" ++ t) nodes with
      | none =>
        constructor
        · exact Or.inl (by simp [onDelete, ht, hf])
        · exact Or.inl (by simp [onDelete, ht, hf])
      | some n =>
        have hnod := onDelete_nodes_eq t nodes tabRes sendOk n ht hf
        refine ⟨?_, Or.inr ⟨t, rfl, hnod⟩⟩
        simp only [onDelete, ht, if_neg, ite_false, hf]
        rcases tabRes with e | (_ | ⟨tid, turl⟩)
        · exact Or.inl rfl
        · exact Or.inl rfl
        · rcases tid with _ | i
          · exact Or.inl rfl
          · by_cases hi : i = 0
            · exact Or.inl (by simp [hi])
            · by_cases hs : sendOk
              · exact Or.inr ⟨i, t, rfl, by simp [hi, hs]⟩
              · exact Or.inl (by simp [hi, hs])

/-- The effects of onPlay are empty or a single PLAY message carrying the
timestamp. -/
theorem onPlay_shape (ts : Option String) (tabRes : Except Unit (Option Tab))
    (sendOk : Bool) :
    onPlay ts tabRes sendOk = [] ∨
      ∃ i t, ts = some t ∧ onPlay ts tabRes sendOk = [Effect.sendMessage i ⟨"PLAY", t⟩] := by
  rcases ts with _ | t
  · exact Or.inl rfl
  · by_cases ht : t = ""
    · exact Or.inl (by simp [onPlay, ht])
    · rcases tabRes with e | (_ | ⟨tid, turl⟩)
      · exact Or.inl (by simp [onPlay, ht])
      · exact Or.inl (by simp [onPlay, ht])
      · rcases tid with _ | i
        · exact Or.inl (by simp [onPlay, ht])
        · by_cases hi : i = 0
          · exact Or.inl (by simp [onPlay, ht, hi])
          · by_cases hs : sendOk
            · exact Or.inr ⟨i, t, rfl, by simp [onPlay, ht, hi, hs]⟩
            · exact Or.inl (by simp [onPlay, ht, hi, hs])

/-- The effects of initializeExtension are empty or a single storage read
keyed by the video id extracted from the tab url. -/
theorem initializeExtension_effects_shape (tabRes : Except Unit (Option Tab))
    (storageErr : Bool) (stored : StorageData) :
    (initializeExtension tabRes storageErr stored).effects = [] ∨
      ∃ tb vid, tabRes = Except.ok (some tb) ∧ extractVideoId tb.url = some vid ∧
        (initializeExtension tabRes storageErr stored).effects
          = [Effect.storageRead vid] := by
  rcases tabRes with e | (_ | ⟨tid, turl⟩)
  · exact Or.inl rfl
  · exact Or.inl rfl
  · rcases turl with _ | u
    · exact Or.inl rfl
    · by_cases hu : u = ""
      · exact Or.inl (by simp [initializeExtension, hu])
      · by_cases hy : isYouTubeVideoPage (some u) = true
        · cases hv : extractVideoId (some u) with
          | none => exact Or.inl (by simp [initializeExtension, hu, hy, hv])
          | some vid =>
            by_cases hvid : vid = ""
            · exact Or.inl (by simp [initializeExtension, hu, hy, hv, hvid])
            · refine Or.inr ⟨⟨tid, some u⟩, vid, rfl, hv, ?_⟩
              by_cases hs : storageErr <;>
                simp [initializeExtension, hu, hy, hv, hvid, hs]
        · have hy2 : isYouTubeVideoPage (some u) = false := by
            simpa using hy
          exact Or.inl (by simp [initializeExtension, hu, hy2])

/-- The effects of refreshBookmarks are empty or a single storage read
keyed by the video id extracted from the tab url. -/
theorem refreshBookmarks_effects_shape (tabRes : Except Unit (Option Tab))
    (storageErr : Bool) (stored : StorageData) :
    (refreshBookmarks tabRes storageErr stored).effects = [] ∨
      ∃ tb vid, tabRes = Except.ok (some tb) ∧ extractVideoId tb.url = some vid ∧
        (refreshBookmarks tabRes storageErr stored).effects
          = [Effect.storageRead vid] := by
  rcases tabRes with e | (_ | ⟨tid, turl⟩)
  · exact Or.inl rfl
  · exact Or.inl rfl
  · cases hv : extractVideoId turl with
    | none => exact Or.inl (by simp [refreshBookmarks, hv])
    | some vid =>
      by_cases hvid : vid = ""
      · exact Or.inl (by simp [refreshBookmarks, hv, hvid])
      · refine Or.inr ⟨⟨tid, turl⟩, vid, rfl, hv, ?_⟩
        by_cases hs : storageErr <;> simp [refreshBookmarks, hv, hvid, hs]

/-- C4: whenever the delete handler runs with a truthy timestamp whose row
exists, the row is removed from the container, and the result is the same
for every tab-fetch result and messaging result: the removal happens
before the messaging step and is never rolled back by a later failure. -/
theorem c4_delete_removes_row (t : String) (nodes : List Node)
    (tabRes : Except Unit (Option Tab)) (sendOk : Bool)
    (ht : t ≠ "") (hrow : (findById ("bookmark-" ++ t) nodes).isSome) :
    (onDelete (some t) nodes tabRes sendOk).nodes
      = removeFirstById ("bookmark-" ++ t) nodes := by
  obtain ⟨n, hn⟩ := Option.isSome_iff_exists.mp hrow
  exact onDelete_nodes_eq t nodes tabRes sendOk n ht hn

/-- Witness for C4: deleting the row for time 5 empties the container even
though the DELETE message fails. -/
theorem c4_witness :
    (onDelete (some "5") [Node.bookmarkRow (mkBookmarkRow 5 "b")]
        (Except.ok (some ⟨some 1, some "u"⟩)) false).nodes = [] := by
  have h := c4_delete_removes_row "5" [Node.bookmarkRow (mkBookmarkRow 5 "b")]
      (Except.ok (some ⟨some 1, some "u"⟩)) false (by decide) (by decide)
  exact h.trans (by decide)

/-- C3 counterexample: when the DELETE message fails the delayed refresh is
not scheduled (the catch intercepts the exception before the setTimeout),
and the refresh is not the initialization cycle: on a non YouTube url
initialization renders the not-a-YouTube-page message while
refreshBookmarks silently does nothing. -/
theorem c3_counterexample :
    (onDelete (some "5") [Node.bookmarkRow (mkBookmarkRow 5 "b")]
        (Except.ok (some ⟨some 1, some "https://youtube.com/watch?v=abc123"⟩))
        false).refreshScheduled = false ∧
    (initializeExtension (Except.ok (some ⟨some 1, some "https://example.com"⟩))
        false (fun _ => none)).outcome = InitOutcome.notYouTubeMsg ∧
    (refreshBookmarks (Except.ok (some ⟨some 1, some "https://example.com"⟩))
        false (fun _ => none)).outcome = RefreshOutcome.noop :=
  ⟨by decide, by decide, by decide⟩

/-- C3 as amended: after a delete with a truthy timestamp, an existing row
and a tab with truthy id, the delayed refresh is scheduled exactly when
the DELETE message does not fail (and it is scheduled when the tab is
undefined, since the send is then skipped, but not when the tab fetch
throws); the scheduled refresh is refreshBookmarks, which renders the same
result as initialization when the page checks would pass and storage
succeeds, though it performs no page checks of its own. -/
theorem c3_amended_refresh (t : String) (nodes : List Node) (i : Int)
    (url : Option String) (sendOk : Bool) (stored : StorageData)
    (ht : t ≠ "") (hrow : (findById ("bookmark-" ++ t) nodes).isSome) (hi : i ≠ 0) :
    ((onDelete (some t) nodes (Except.ok (some ⟨some i, url⟩)) sendOk).refreshScheduled
        = sendOk) ∧
    ((onDelete (some t) nodes (Except.error ()) sendOk).refreshScheduled = false) ∧
    ((onDelete (some t) nodes (Except.ok none) sendOk).refreshScheduled = true) ∧
    ∀ u vid, url = some u → extractVideoId (some u) = some vid → vid ≠ "" →
      isYouTubeVideoPage (some u) = true →
      (refreshBookmarks (Except.ok (some ⟨some i, url⟩)) false stored).outcome
        = RefreshOutcome.rendered (renderBookmarks (.arr ((stored vid).getD []))).nodes ∧
      (initializeExtension (Except.ok (some ⟨some i, url⟩)) false stored).outcome
        = InitOutcome.rendered (renderBookmarks (.arr ((stored vid).getD []))).nodes := by
  obtain ⟨n, hn⟩ := Option.isSome_iff_exists.mp hrow
  refine ⟨?_, ?_, ?_, ?_⟩
  · simp only [onDelete, ht, if_neg, ite_false, hn]
    by_cases hs : sendOk <;> simp [hi, hs]
  · simp only [onDelete, ht, if_neg, ite_false, hn]
  · simp only [onDelete, ht, if_neg, ite_false, hn]
  · rintro u vid rfl hv hvid hy
    have hu : u ≠ "" := by
      intro he
      subst he
      simp [extractVideoId] at hv
    simp [refreshBookmarks, initializeExtension, hu, hy, hv, hvid]

/-- Witness for C3 as amended: with a successful DELETE message the refresh
is scheduled, and at the watch url with id abc123 the refresh renders the
same outcome as initialization. -/
theorem c3_witness :
    ((onDelete (some "5") [Node.bookmarkRow (mkBookmarkRow 5 "b")]
        (Except.ok (some ⟨some 1, some "https://youtube.com/watch?v=abc123"⟩))
        true).refreshScheduled = true) ∧
    (refreshBookmarks
        (Except.ok (some ⟨some 1, some "https://youtube.com/watch?v=abc123"⟩))
        false (fun _ => none)).outcome
      = RefreshOutcome.rendered [Node.placeholderRow "No bookmarks to show"] ∧
    (initializeExtension
        (Except.ok (some ⟨some 1, some "https://youtube.com/watch?v=abc123"⟩))
        false (fun _ => none)).outcome
      = InitOutcome.rendered [Node.placeholderRow "No bookmarks to show"] := by
  have h := c3_amended_refresh "5" [Node.bookmarkRow (mkBookmarkRow 5 "b")] 1
      (some "https://youtube.com/watch?v=abc123") true (fun _ => none)
      (by decide) (by decide) (by decide)
  have h4 := h.2.2.2 "https://youtube.com/watch?v=abc123" "abc123" rfl
    (by decide) (by decide) (by decide)
  exact ⟨h.1, h4.1.trans (by decide), h4.2.trans (by decide)⟩

/-- C9: no popup operation ever writes to persisted storage; the storage
reads of initialization and refresh are keyed by the extracted video id;
and delete only removes the addressed row from the container and sends
DELETE messages. -/
theorem c9_no_storage_writes (tabRes : Except Unit (Option Tab)) (storageErr : Bool)
    (stored : StorageData) (ts : Option String) (nodes : List Node) (sendOk : Bool) :
    ((initializeExtension tabRes storageErr stored).effects.all
        fun e => !e.isStorageWrite) = true ∧
    ((refreshBookmarks tabRes storageErr stored).effects.all
        fun e => !e.isStorageWrite) = true ∧
    ((onDelete ts nodes tabRes sendOk).effects.all fun e => !e.isStorageWrite) = true ∧
    ((onPlay ts tabRes sendOk).all fun e => !e.isStorageWrite) = true ∧
    (∀ k, Effect.storageRead k ∈ (initializeExtension tabRes storageErr stored).effects →
      ∃ tb, tabRes = Except.ok (some tb) ∧ extractVideoId tb.url = some k) ∧
    (∀ k, Effect.storageRead k ∈ (refreshBookmarks tabRes storageErr stored).effects →
      ∃ tb, tabRes = Except.ok (some tb) ∧ extractVideoId tb.url = some k) ∧
    ((onDelete ts nodes tabRes sendOk).effects.all fun e =>
        match e with
        | Effect.sendMessage _ m => m.type == "DELETE"
        | _ => false) = true ∧
    ((onDelete ts nodes tabRes sendOk).nodes = nodes ∨
      ∃ t, ts = some t ∧
        (onDelete ts nodes tabRes sendOk).nodes
          = removeFirstById ("bookmark-" ++ t) nodes) := by
  obtain ⟨hdel_eff, hdel_nodes⟩ := onDelete_shape ts nodes tabRes sendOk
  refine ⟨?_, ?_, ?_, ?_, ?_, ?_, ?_, hdel_nodes⟩
  · rcases initializeExtension_effects_shape tabRes storageErr stored with
      h | ⟨tb, vid, _, _, h⟩ <;> simp [h, Effect.isStorageWrite]
  · rcases refreshBookmarks_effects_shape tabRes storageErr stored with
      h | ⟨tb, vid, _, _, h⟩ <;> simp [h, Effect.isStorageWrite]
  · rcases hdel_eff with h | ⟨i, t, _, h⟩ <;> simp [h, Effect.isStorageWrite]
  · rcases onPlay_shape ts tabRes sendOk with h | ⟨i, t, _, h⟩ <;>
      simp [h, Effect.isStorageWrite]
  · intro k hk
    rcases initializeExtension_effects_shape tabRes storageErr stored with
      h | ⟨tb, vid, htb, hvid, h⟩
    · rw [h] at hk
      simp at hk
    · rw [h] at hk
      simp at hk
      exact ⟨tb, htb, hk ▸ hvid⟩
  · intro k hk
    rcases refreshBookmarks_effects_shape tabRes storageErr stored with
      h | ⟨tb, vid, htb, hvid, h⟩
    · rw [h] at hk
      simp at hk
    · rw [h] at hk
      simp at hk
      exact ⟨tb, htb, hk ▸ hvid⟩
  · rcases hdel_eff with h | ⟨i, t, _, h⟩ <;> simp [h]

/-- Witness for C9 at a concrete delete on a found row with a live tab. -/
theorem c9_witness :
    ((onDelete (some "5") [Node.bookmarkRow (mkBookmarkRow 5 "b")]
        (Except.ok (some ⟨some 1, some "https://youtube.com/watch?v=abc123"⟩))
        true).effects.all fun e => !e.isStorageWrite) = true :=
  (c9_no_storage_writes
      (Except.ok (some ⟨some 1, some "https://youtube.com/watch?v=abc123"⟩))
      false (fun _ => none) (some "5") [Node.bookmarkRow (mkBookmarkRow 5 "b")]
      true).2.2.1

end YTB


